import Mathlib

set_option linter.unnecessarySeqFocus false

/-!
Verification of the subscription engine of the satori-rtm-sdk-go client
library.  The repository ships the test file
rtm/subscription/subscription_test.go; the subscription and pdu packages
themselves are modelled here from the specification, with each handler
pinned down by the behaviour the tests demand.
-/

namespace RtmSub

/-- Modelled from the spec: JSON values as produced by the Go pdu package
when it marshals PDU bodies.  Opaque user payloads (raw JSON blobs,
`json.RawMessage` in Go) are kept as uninterpreted strings. -/
inductive JValue where
  | jstr (s : String)
  | jbool (b : Bool)
  | jnum (n : Nat)
  | jraw (s : String)
  | jobj (fields : List (String × JValue))
deriving Repr

/-- Field lookup in a marshalled JSON object: the first binding with the
given key, or `none` when the key is absent (an omitted field). -/
def lookupField (fields : List (String × JValue)) (k : String) : Option JValue :=
  match fields with
  | [] => none
  | (k2, v) :: rest => if k2 = k then some v else lookupField rest k

/-- Modelled from the spec: a subscription mode is the flag pair
(trackPosition, fastForward), mirroring the `Mode` struct checked by
TestModes. -/
structure Mode where
  trackPosition : Bool
  fastForward : Bool
deriving Repr, DecidableEq

/-- Modelled from the spec: SIMPLE = (false, true). -/
def SIMPLE : Mode := { trackPosition := false, fastForward := true }

/-- Modelled from the spec: RELIABLE = (true, true). -/
def RELIABLE : Mode := { trackPosition := true, fastForward := true }

/-- Modelled from the spec: ADVANCED = (true, false). -/
def ADVANCED : Mode := { trackPosition := true, fastForward := false }

/-- Modelled from the spec: the history option of a subscribe body
(`pdu.SubscribeHistory` with fields Count and Age). -/
structure SubscribeHistory where
  count : Nat
  age : Nat
deriving Repr, DecidableEq

/-- Modelled from the spec: the options supplied at registration
(`pdu.SubscribeBodyOpts`): filter SQL, history spec, initial position.
As in Go, the empty string encodes an absent filter or position. -/
structure SubscribeBodyOpts where
  filter : String
  history : SubscribeHistory
  position : String
deriving Repr, DecidableEq

/-- Modelled from the spec: the per-subscription states the subscription
package exposes (the two the tests observe, STATE_UNSUBSCRIBED and
STATE_SUBSCRIBED). -/
inductive SubscriptionState where
  | STATE_UNSUBSCRIBED
  | STATE_SUBSCRIBED
deriving Repr, DecidableEq

/-- Modelled from the spec: the per-channel subscription record: id, mode,
registration options, last known position (empty string = no position),
current state.  The listener set is modelled by returning the fired
events from each handler instead of storing callbacks. -/
structure Subscription where
  subscriptionId : String
  mode : Mode
  bodyOpts : SubscribeBodyOpts
  position : String
  state : SubscriptionState
deriving Repr, DecidableEq

/-- Modelled from the spec: `New` registers a subscription in the initial
UNSUBSCRIBED state with no stored position (in SIMPLE mode the stored
position is always empty; in tracking modes nothing has been received
yet, so the options carry the only candidate position). -/
def New (subscriptionId : String) (mode : Mode) (bodyOpts : SubscribeBodyOpts) :
    Subscription :=
  { subscriptionId := subscriptionId
    mode := mode
    bodyOpts := bodyOpts
    position := ""
    state := SubscriptionState.STATE_UNSUBSCRIBED }

/-- Modelled from the spec: a protocol data unit as built by the
subscription package: an action and a marshalled JSON body.  (The id is
assigned later by the multiplexer and is not part of these PDUs.) -/
structure PDU where
  action : String
  body : JValue
deriving Repr

/-- Modelled from the spec: the subscribe body struct
(`pdu.SubscribeBody`) before marshalling.  The empty string encodes an
absent filter or position, and a history with count and age both zero is
absent, matching the omitempty round-trip the tests rely on. -/
structure SubscribeBody where
  subscriptionId : String
  force : Bool
  fastForward : Bool
  filter : String
  history : SubscribeHistory
  position : String
deriving Repr, DecidableEq

/-- Modelled from the spec: the position field of the subscribe body,
built from the current subscription state at send time: the stored
position if the mode tracks position and one exists; else the options
position; else empty (omitted). -/
def Subscription.subscribePosition (s : Subscription) : String :=
  if s.mode.trackPosition = true ∧ s.position ≠ "" then s.position
  else s.bodyOpts.position

/-- Modelled from the spec: the subscribe body built from the current
subscription state at send time (§4.5 table): subscription_id, force =
true, fast_forward from the mode, filter and history from the options,
position per `subscribePosition`. -/
def Subscription.subscribeBody (s : Subscription) : SubscribeBody :=
  { subscriptionId := s.subscriptionId
    force := true
    fastForward := s.mode.fastForward
    filter := s.bodyOpts.filter
    history := s.bodyOpts.history
    position := s.subscribePosition }

/-- Modelled from the spec: the marshalled JSON of a history spec. -/
def marshalHistory (h : SubscribeHistory) : JValue :=
  JValue.jobj [("count", JValue.jnum h.count), ("age", JValue.jnum h.age)]

/-- Modelled from the spec: the field list of the marshalled subscribe
body.  subscription_id, force and fast_forward are always present;
filter, history and position are present only when non-absent (Go
omitempty). -/
def subscribeBodyFields (b : SubscribeBody) : List (String × JValue) :=
  [("subscription_id", JValue.jstr b.subscriptionId),
   ("force", JValue.jbool b.force),
   ("fast_forward", JValue.jbool b.fastForward)]
  ++ (if b.filter ≠ "" then [("filter", JValue.jstr b.filter)] else [])
  ++ (if b.history.count ≠ 0 ∨ b.history.age ≠ 0 then
        [("history", marshalHistory b.history)]
      else [])
  ++ (if b.position ≠ "" then [("position", JValue.jstr b.position)] else [])

/-- Modelled from the spec: marshalling of the subscribe body to JSON. -/
def marshalSubscribeBody (b : SubscribeBody) : JValue :=
  JValue.jobj (subscribeBodyFields b)

/-- Look a field up in the body of a PDU (none if the body is not an
object or the field is omitted). -/
def PDU.bodyField (p : PDU) (k : String) : Option JValue :=
  match p.body with
  | JValue.jobj fields => lookupField fields k
  | _ => none

/-- Modelled from the spec: `SubscribePdu` returns the rtm/subscribe PDU
whose body is built from the current subscription state at the moment of
the call. -/
def Subscription.SubscribePdu (s : Subscription) : PDU :=
  { action := "rtm/subscribe", body := marshalSubscribeBody s.subscribeBody }

/-- Modelled from the spec: `UnsubscribePdu` returns the rtm/unsubscribe
PDU whose body holds only the subscription id. -/
def Subscription.UnsubscribePdu (s : Subscription) : PDU :=
  { action := "rtm/unsubscribe"
    body := JValue.jobj [("subscription_id", JValue.jstr s.subscriptionId)] }

/-- Modelled from the spec: the body of an rtm/subscribe/ok response
(`pdu.SubscribeOk`). -/
structure SubscribeOk where
  position : String
  subscriptionId : String
deriving Repr, DecidableEq

/-- Modelled from the spec: the body of an rtm/subscription/data frame
(`pdu.SubscriptionData`): a position and a batch of opaque JSON
messages. -/
structure SubscriptionData where
  position : String
  messages : List String
  subscriptionId : String
deriving Repr, DecidableEq

/-- Modelled from the spec: the body of an rtm/subscription/info frame
(`pdu.SubscriptionInfo`). -/
structure SubscriptionInfo where
  info : String
  reason : String
  position : String
deriving Repr, DecidableEq

/-- Modelled from the spec: the body of an rtm/subscription/error frame
(`pdu.SubscribeError`). -/
structure SubscribeError where
  error : String
  reason : String
deriving Repr, DecidableEq

/-- Modelled from the spec: the events a subscription fires on its
listeners.  A data event carries one opaque message blob, as in
TestDataChannel where the data callback receives a single
`json.RawMessage`. -/
inductive Emitted where
  | subscribed (ok : SubscribeOk)
  | dataMsg (m : String)
  | info (i : SubscriptionInfo)
  | subscribeError (e : SubscribeError)
  | unsubscribed (reason : String)
deriving Repr, DecidableEq

/-- Modelled from the spec: position tracking: a received position
replaces the stored position only in tracking modes; in SIMPLE mode the
stored position is always empty, so it is left untouched. -/
def Subscription.trackPosition (s : Subscription) (p : String) : Subscription :=
  if s.mode.trackPosition = true then { s with position := p } else s

/-- Modelled from the spec: processing rtm/subscribe/ok: move to
SUBSCRIBED, track the position from the ok, fire `subscribed`.  After
SUBSCRIBED, a re-sent subscribe PDU uses the stored position (§4.5), so
the initial position from the options applies only up to the first
successful subscribe and is consumed here. -/
def Subscription.OnSubscribe (s : Subscription) (ok : SubscribeOk) :
    Subscription × List Emitted :=
  let s2 := s.trackPosition ok.position
  ({ s2 with
      state := SubscriptionState.STATE_SUBSCRIBED
      bodyOpts := { s2.bodyOpts with position := "" } },
   [Emitted.subscribed ok])

/-- Fire the data event once per message of a batch, in batch order. -/
def fireDataEach (msgs : List String) : List Emitted :=
  match msgs with
  | [] => []
  | m :: rest => Emitted.dataMsg m :: fireDataEach rest

/-- Modelled from the spec: processing rtm/subscription/data: the
position from the data replaces the stored position in tracking modes,
and the data event fires once per message of the batch, in order, each
message passed through unmodified. -/
def Subscription.ProcessData (s : Subscription) (d : SubscriptionData) :
    Subscription × List Emitted :=
  (s.trackPosition d.position, fireDataEach d.messages)

/-- Modelled from the spec: processing rtm/subscription/info: update the
position to info.position (in tracking modes) and fire `info`. -/
def Subscription.OnInfo (s : Subscription) (i : SubscriptionInfo) :
    Subscription × List Emitted :=
  (s.trackPosition i.position, [Emitted.info i])

/-- Modelled from the spec: processing rtm/subscription/error: move to
UNSUBSCRIBED, clear the position if the error is out_of_sync, fire
`subscribeError`. -/
def Subscription.OnSubscribeError (s : Subscription) (e : SubscribeError) :
    Subscription × List Emitted :=
  let s2 := if e.error = "out_of_sync" then { s with position := "" } else s
  ({ s2 with state := SubscriptionState.STATE_UNSUBSCRIBED },
   [Emitted.subscribeError e])

/-- Modelled from the spec: transport close: from any state back to
UNSUBSCRIBED, firing `unsubscribed` with the disconnect reason; the
stored position and the registration are kept so the client can replay
the subscription. -/
def Subscription.OnDisconnect (s : Subscription) : Subscription × List Emitted :=
  ({ s with state := SubscriptionState.STATE_UNSUBSCRIBED },
   [Emitted.unsubscribed "disconnect"])

/-- The inbound happenings a single subscription can process. -/
inductive Event where
  | subOk (ok : SubscribeOk)
  | subData (d : SubscriptionData)
  | subInfo (i : SubscriptionInfo)
  | subError (e : SubscribeError)
  | disconnect
deriving Repr, DecidableEq

/-- One processing step of a subscription (state part of the handler). -/
def Subscription.step (s : Subscription) (e : Event) : Subscription :=
  match e with
  | Event.subOk ok => (s.OnSubscribe ok).1
  | Event.subData d => (s.ProcessData d).1
  | Event.subInfo i => (s.OnInfo i).1
  | Event.subError er => (s.OnSubscribeError er).1
  | Event.disconnect => s.OnDisconnect.1

/-- Processing a whole sequence of events, first to last. -/
def Subscription.run (s : Subscription) (evs : List Event) : Subscription :=
  evs.foldl Subscription.step s

/-- Whether an event is a subscription data or info frame. -/
def Event.isDataOrInfo : Event → Bool
  | Event.subData _ => true
  | Event.subInfo _ => true
  | _ => false

/-- The position carried by a subscription frame (empty for frames that
carry none). -/
def Event.framePosition : Event → String
  | Event.subOk ok => ok.position
  | Event.subData d => d.position
  | Event.subInfo i => i.position
  | _ => ""

/-- Modelled from the spec: the client connection states of §4.6. -/
inductive ClientState where
  | STOPPED
  | CONNECTING
  | AUTHENTICATING
  | CONNECTED
  | AWAITING_RECONNECT
deriving Repr, DecidableEq

/-- Modelled from the spec: session-level events the client fires while
dispatching inbound frames (only those the claims mention). -/
inductive SessionEvent where
  | errorEvent (msg : String)
  | disconnected
deriving Repr, DecidableEq

/-- Modelled from the spec: the part of the client relevant to frame
dispatch: the connection state and the subscription registry. -/
structure Client where
  state : ClientState
  subscriptions : List Subscription
deriving Repr, DecidableEq

/-- Modelled from the spec: the inbound happenings the client dispatches:
subscription frames routed to the registry by subscription id, a
protocol error, and a transport close. -/
inductive InboundFrame where
  | subscriptionData (subId : String) (d : SubscriptionData)
  | subscriptionInfo (subId : String) (i : SubscriptionInfo)
  | subscriptionError (subId : String) (e : SubscribeError)
  | protocolError (msg : String)
  | transportClosed
deriving Repr, DecidableEq

/-- Route an update to the registered subscription with the given id. -/
def Client.applyToSub (c : Client) (subId : String)
    (f : Subscription → Subscription) : Client :=
  { c with
      subscriptions := c.subscriptions.map
        (fun s => if s.subscriptionId = subId then f s else s) }

/-- Modelled from the spec: frame dispatch in the CONNECTED state (§4.6):
subscription frames are routed to the registry and leave the connection
alone; a protocol error fires the session error event but keeps the
connection; a transport close moves the client to AWAITING_RECONNECT and
every subscription back to UNSUBSCRIBED. -/
def Client.handleFrame (c : Client) (fr : InboundFrame) :
    Client × List SessionEvent :=
  match fr with
  | InboundFrame.subscriptionData subId d =>
      (c.applyToSub subId (fun s => (s.ProcessData d).1), [])
  | InboundFrame.subscriptionInfo subId i =>
      (c.applyToSub subId (fun s => (s.OnInfo i).1), [])
  | InboundFrame.subscriptionError subId e =>
      (c.applyToSub subId (fun s => (s.OnSubscribeError e).1), [])
  | InboundFrame.protocolError msg =>
      (c, [SessionEvent.errorEvent msg])
  | InboundFrame.transportClosed =>
      ({ state := ClientState.AWAITING_RECONNECT
         subscriptions := c.subscriptions.map (fun s => s.OnDisconnect.1) },
       [SessionEvent.disconnected])

/-- A history option that is absent (count and age both zero). -/
def histNone : SubscribeHistory := { count := 0, age := 0 }

/-- Registration options with no filter, no history and no position. -/
def optsNone : SubscribeBodyOpts := { filter := "", history := histNone, position := "" }

/-- Registration options carrying only an initial position. -/
def optsPos (p : String) : SubscribeBodyOpts :=
  { filter := "", history := histNone, position := p }

/-- A SUBSCRIBED ADVANCED subscription used as the faulty one in the
two-subscription scenario. -/
def subA : Subscription :=
  { subscriptionId := "A", mode := ADVANCED, bodyOpts := optsNone,
    position := "5", state := SubscriptionState.STATE_SUBSCRIBED }

/-- A SUBSCRIBED RELIABLE subscription used as the healthy one in the
two-subscription scenario. -/
def subB : Subscription :=
  { subscriptionId := "B", mode := RELIABLE, bodyOpts := optsNone,
    position := "7", state := SubscriptionState.STATE_SUBSCRIBED }

/-- A connected client holding the two subscriptions above. -/
def clientAB : Client :=
  { state := ClientState.CONNECTED, subscriptions := [subA, subB] }

/-- An out_of_sync subscription error. -/
def errOutOfSync : SubscribeError :=
  { error := "out_of_sync", reason := "subscriber fell behind" }

theorem subscribeBodyFields_subscription_id (b : SubscribeBody) :
    lookupField (subscribeBodyFields b) "subscription_id" =
      some (JValue.jstr b.subscriptionId) := by
  simp [subscribeBodyFields, lookupField]

theorem subscribeBodyFields_force (b : SubscribeBody) :
    lookupField (subscribeBodyFields b) "force" = some (JValue.jbool b.force) := by
  simp [subscribeBodyFields, lookupField]

theorem subscribeBodyFields_fast_forward (b : SubscribeBody) :
    lookupField (subscribeBodyFields b) "fast_forward" =
      some (JValue.jbool b.fastForward) := by
  simp [subscribeBodyFields, lookupField]

theorem subscribeBodyFields_filter (b : SubscribeBody) :
    lookupField (subscribeBodyFields b) "filter" =
      if b.filter ≠ "" then some (JValue.jstr b.filter) else none := by
  by_cases hf : b.filter = "" <;>
    by_cases hh : b.history.count ≠ 0 ∨ b.history.age ≠ 0 <;>
    by_cases hp : b.position = "" <;>
    simp [subscribeBodyFields, lookupField, hf, hh, hp]

theorem subscribeBodyFields_history (b : SubscribeBody) :
    lookupField (subscribeBodyFields b) "history" =
      if b.history.count ≠ 0 ∨ b.history.age ≠ 0 then some (marshalHistory b.history)
      else none := by
  by_cases hf : b.filter = "" <;>
    by_cases hh : b.history.count ≠ 0 ∨ b.history.age ≠ 0 <;>
    by_cases hp : b.position = "" <;>
    simp [subscribeBodyFields, lookupField, hf, hh, hp]

theorem subscribeBodyFields_position (b : SubscribeBody) :
    lookupField (subscribeBodyFields b) "position" =
      if b.position ≠ "" then some (JValue.jstr b.position) else none := by
  by_cases hf : b.filter = "" <;>
    by_cases hh : b.history.count ≠ 0 ∨ b.history.age ≠ 0 <;>
    by_cases hp : b.position = "" <;>
    simp [subscribeBodyFields, lookupField, hf, hh, hp]

theorem trackPosition_mode (s : Subscription) (p : String) :
    (s.trackPosition p).mode = s.mode := by
  unfold Subscription.trackPosition; split <;> rfl

theorem trackPosition_subscriptionId (s : Subscription) (p : String) :
    (s.trackPosition p).subscriptionId = s.subscriptionId := by
  unfold Subscription.trackPosition; split <;> rfl

theorem trackPosition_bodyOpts (s : Subscription) (p : String) :
    (s.trackPosition p).bodyOpts = s.bodyOpts := by
  unfold Subscription.trackPosition; split <;> rfl

theorem trackPosition_state (s : Subscription) (p : String) :
    (s.trackPosition p).state = s.state := by
  unfold Subscription.trackPosition; split <;> rfl

theorem trackPosition_position (s : Subscription) (p : String) :
    (s.trackPosition p).position =
      if s.mode.trackPosition = true then p else s.position := by
  by_cases h : s.mode.trackPosition = true <;> simp [Subscription.trackPosition, h]

theorem step_mode (s : Subscription) (e : Event) : (s.step e).mode = s.mode := by
  cases e <;>
    simp [Subscription.step, Subscription.OnSubscribe, Subscription.ProcessData,
      Subscription.OnInfo, Subscription.OnSubscribeError, Subscription.OnDisconnect,
      trackPosition_mode] <;>
    (try split) <;> rfl

theorem run_cons (s : Subscription) (e : Event) (rest : List Event) :
    s.run (e :: rest) = (s.step e).run rest := rfl

theorem run_append_single (s : Subscription) (evs : List Event) (e0 : Event) :
    s.run (evs ++ [e0]) = (s.run evs).step e0 := by
  simp [Subscription.run, List.foldl_append]

theorem run_mode (s : Subscription) (evs : List Event) : (s.run evs).mode = s.mode := by
  induction evs generalizing s with
  | nil => rfl
  | cons e rest ih =>
      rw [run_cons]
      rw [ih (s.step e)]
      exact step_mode s e

theorem step_position_untracked (s : Subscription) (e : Event)
    (hm : s.mode.trackPosition = false) (hp : s.position = "") :
    (s.step e).position = "" := by
  cases e <;>
    simp [Subscription.step, Subscription.OnSubscribe, Subscription.ProcessData,
      Subscription.OnInfo, Subscription.OnSubscribeError, Subscription.OnDisconnect,
      trackPosition_position, hm, hp] <;>
    (try split) <;> simp [hp]

theorem run_position_untracked (s : Subscription) (evs : List Event)
    (hm : s.mode.trackPosition = false) (hp : s.position = "") :
    (s.run evs).position = "" := by
  induction evs generalizing s with
  | nil => exact hp
  | cons e rest ih =>
      rw [run_cons]
      exact ih (s.step e) (by rw [step_mode]; exact hm)
        (step_position_untracked s e hm hp)

theorem step_optsPosition (s : Subscription) (e : Event)
    (h : s.bodyOpts.position = "") :
    (s.step e).bodyOpts.position = "" := by
  cases e <;>
    simp [Subscription.step, Subscription.OnSubscribe, Subscription.ProcessData,
      Subscription.OnInfo, Subscription.OnSubscribeError, Subscription.OnDisconnect,
      trackPosition_bodyOpts, h] <;>
    (try split) <;> simp [h]

theorem run_optsPosition (s : Subscription) (evs : List Event)
    (h : s.bodyOpts.position = "") :
    (s.run evs).bodyOpts.position = "" := by
  induction evs generalizing s with
  | nil => exact h
  | cons e rest ih =>
      rw [run_cons]
      exact ih (s.step e) (step_optsPosition s e h)

theorem step_subOk_optsPosition (s : Subscription) (ok : SubscribeOk) :
    (s.step (Event.subOk ok)).bodyOpts.position = "" := rfl

theorem step_disconnect_keeps (s : Subscription) :
    (s.step Event.disconnect).mode = s.mode
    ∧ (s.step Event.disconnect).position = s.position
    ∧ (s.step Event.disconnect).bodyOpts = s.bodyOpts := ⟨rfl, rfl, rfl⟩

theorem run_disconnects_keeps (s : Subscription) (evs : List Event)
    (h : ∀ e ∈ evs, e = Event.disconnect) :
    (s.run evs).mode = s.mode
    ∧ (s.run evs).position = s.position
    ∧ (s.run evs).bodyOpts = s.bodyOpts := by
  induction evs generalizing s with
  | nil => exact ⟨rfl, rfl, rfl⟩
  | cons e rest ih =>
      have he : e = Event.disconnect := h e (by simp)
      subst he
      rw [run_cons]
      have hr := ih (s.step Event.disconnect) (fun x hx => h x (by simp [hx]))
      exact ⟨hr.1, hr.2.1, hr.2.2⟩

/-- Claim C1: For every subscription, SubscribePdu() returns a PDU with
action rtm/subscribe whose body is built from the subscription state at
the moment of the call: subscription_id is the subscription id, force is
true, fast_forward is the mode's fastForward flag, filter and history
are copied from the options when present, and position is the stored
position if the mode tracks position and a stored position exists,
otherwise the options' position, otherwise omitted. -/
theorem subscribePdu_fields (s : Subscription) :
    (s.SubscribePdu).action = "rtm/subscribe"
    ∧ (s.SubscribePdu).bodyField "subscription_id" = some (JValue.jstr s.subscriptionId)
    ∧ (s.SubscribePdu).bodyField "force" = some (JValue.jbool true)
    ∧ (s.SubscribePdu).bodyField "fast_forward" = some (JValue.jbool s.mode.fastForward)
    ∧ (s.SubscribePdu).bodyField "filter" =
        (if s.bodyOpts.filter ≠ "" then some (JValue.jstr s.bodyOpts.filter) else none)
    ∧ (s.SubscribePdu).bodyField "history" =
        (if s.bodyOpts.history.count ≠ 0 ∨ s.bodyOpts.history.age ≠ 0
         then some (marshalHistory s.bodyOpts.history) else none)
    ∧ (s.SubscribePdu).bodyField "position" =
        (if s.mode.trackPosition = true ∧ s.position ≠ ""
         then some (JValue.jstr s.position)
         else if s.bodyOpts.position ≠ "" then some (JValue.jstr s.bodyOpts.position)
         else none) := by
  refine ⟨rfl, ?_, ?_, ?_, ?_, ?_, ?_⟩
  · simp [Subscription.SubscribePdu, PDU.bodyField, marshalSubscribeBody,
      subscribeBodyFields_subscription_id, Subscription.subscribeBody]
  · simp [Subscription.SubscribePdu, PDU.bodyField, marshalSubscribeBody,
      subscribeBodyFields_force, Subscription.subscribeBody]
  · simp [Subscription.SubscribePdu, PDU.bodyField, marshalSubscribeBody,
      subscribeBodyFields_fast_forward, Subscription.subscribeBody]
  · simp [Subscription.SubscribePdu, PDU.bodyField, marshalSubscribeBody,
      subscribeBodyFields_filter, Subscription.subscribeBody]
  · simp [Subscription.SubscribePdu, PDU.bodyField, marshalSubscribeBody,
      subscribeBodyFields_history, Subscription.subscribeBody]
  · by_cases ht : s.mode.trackPosition = true ∧ s.position ≠ "" <;>
      by_cases ho : s.bodyOpts.position = "" <;>
      simp [Subscription.SubscribePdu, PDU.bodyField, marshalSubscribeBody,
        subscribeBodyFields_position, Subscription.subscribeBody,
        Subscription.subscribePosition, ht, ho]

/-- Claim C2: For every subscription in SIMPLE mode, once a subscribe/ok
has been processed (so the subscription has been SUBSCRIBED at least
once), every subsequently built subscribe PDU omits the position field,
even if an initial position was supplied in the options or data carrying
positions was received. -/
theorem simple_resubscribe_omits_position (sid : String) (opts : SubscribeBodyOpts)
    (evs1 : List Event) (ok : SubscribeOk) (evs2 : List Event) :
    (((((New sid SIMPLE opts).run evs1).step (Event.subOk ok)).run evs2).SubscribePdu).bodyField
      "position" = none := by
  have hm1 : ((New sid SIMPLE opts).run evs1).mode.trackPosition = false := by
    rw [run_mode]; rfl
  have hp1 : ((New sid SIMPLE opts).run evs1).position = "" :=
    run_position_untracked _ evs1 rfl rfl
  have hm2 :
      (((New sid SIMPLE opts).run evs1).step (Event.subOk ok)).mode.trackPosition = false := by
    rw [step_mode]; exact hm1
  have hp2 : (((New sid SIMPLE opts).run evs1).step (Event.subOk ok)).position = "" :=
    step_position_untracked _ _ hm1 hp1
  have ho2 : (((New sid SIMPLE opts).run evs1).step (Event.subOk ok)).bodyOpts.position = "" :=
    step_subOk_optsPosition _ ok
  have hm3 :
      (((((New sid SIMPLE opts).run evs1).step (Event.subOk ok)).run evs2)).mode.trackPosition
        = false := by
    rw [run_mode]; exact hm2
  have hp3 :
      (((((New sid SIMPLE opts).run evs1).step (Event.subOk ok)).run evs2)).position = "" :=
    run_position_untracked _ evs2 hm2 hp2
  have ho3 :
      (((((New sid SIMPLE opts).run evs1).step (Event.subOk ok)).run evs2)).bodyOpts.position
        = "" :=
    run_optsPosition _ evs2 ho2
  simp [Subscription.SubscribePdu, PDU.bodyField, marshalSubscribeBody,
    subscribeBodyFields_position, Subscription.subscribeBody,
    Subscription.subscribePosition, hm3, hp3, ho3]

/-- Claim C3: For every subscription in a position-tracking mode, after a
subscribe/ok carrying position p has been processed, and with only
transport disconnects (no further subscription frame) before the rebuild,
the next subscribe PDU carries position p, so the stream resumes from
the last known position.  Positions handed out by the server are
non-empty strings. -/
theorem tracking_resubscribe_carries_position (s : Subscription) (ok : SubscribeOk)
    (evs : List Event) (htrack : s.mode.trackPosition = true)
    (hpos : ok.position ≠ "") (hdis : ∀ e ∈ evs, e = Event.disconnect) :
    (((s.step (Event.subOk ok)).run evs).SubscribePdu).bodyField "position" =
      some (JValue.jstr ok.position) := by
  have hkeep := run_disconnects_keeps (s.step (Event.subOk ok)) evs hdis
  have hm : ((s.step (Event.subOk ok)).run evs).mode.trackPosition = true := by
    rw [hkeep.1, step_mode]; exact htrack
  have hp : ((s.step (Event.subOk ok)).run evs).position = ok.position := by
    rw [hkeep.2.1]
    show ((s.OnSubscribe ok).1).position = ok.position
    simp [Subscription.OnSubscribe, trackPosition_position, htrack]
  simp [Subscription.SubscribePdu, PDU.bodyField, marshalSubscribeBody,
    subscribeBodyFields_position, Subscription.subscribeBody,
    Subscription.subscribePosition, hm, hp, hpos]

/-- Witness for C3: the TestReliableSubscription scenario with a
disconnect before the rebuild: a RELIABLE subscription created with
initial position 123, acknowledged at position 321, re-sends position
321 after the disconnect. -/
theorem tracking_resubscribe_carries_position_witness :
    ((((New "test123" RELIABLE (optsPos "123")).step
        (Event.subOk { position := "321", subscriptionId := "test123" })).run
        [Event.disconnect]).SubscribePdu).bodyField "position" =
      some (JValue.jstr "321") := by
  exact tracking_resubscribe_carries_position (New "test123" RELIABLE (optsPos "123"))
    { position := "321", subscriptionId := "test123" } [Event.disconnect]
    rfl (by decide) (by decide)

/-- Claim C4: For every subscription in a position-tracking mode and
every non-empty sequence of processed subscription data and info frames,
the stored position after processing the sequence equals the position of
the last frame; in particular an info frame with position q sets the
stored position to q. -/
theorem tracking_position_follows_last_frame (s : Subscription) (evs : List Event)
    (e0 : Event) (htrack : s.mode.trackPosition = true)
    (hall : ∀ e ∈ evs ++ [e0], e.isDataOrInfo = true) :
    (s.run (evs ++ [e0])).position = e0.framePosition := by
  have h0 : e0.isDataOrInfo = true := hall e0 (by simp)
  have hm : (s.run evs).mode.trackPosition = true := by rw [run_mode]; exact htrack
  rw [run_append_single]
  cases e0 with
  | subData d =>
      simp [Subscription.step, Subscription.ProcessData, trackPosition_position, hm,
        Event.framePosition]
  | subInfo i =>
      simp [Subscription.step, Subscription.OnInfo, trackPosition_position, hm,
        Event.framePosition]
  | subOk ok => simp [Event.isDataOrInfo] at h0
  | subError er => simp [Event.isDataOrInfo] at h0
  | disconnect => simp [Event.isDataOrInfo] at h0

/-- Witness for C4: a RELIABLE subscription that processes a data frame
at position 123 and then an info frame at position 987654321 stores
987654321, the position of the last frame. -/
theorem tracking_position_follows_last_frame_witness :
    ((New "reliable" RELIABLE optsNone).run
        ([Event.subData { position := "123", messages := ["hello"], subscriptionId := "reliable" }]
         ++ [Event.subInfo { info := "fast_forward", reason := "slow read", position := "987654321" }])).position
      = "987654321" := by
  exact tracking_position_follows_last_frame (New "reliable" RELIABLE optsNone)
    [Event.subData { position := "123", messages := ["hello"], subscriptionId := "reliable" }]
    (Event.subInfo { info := "fast_forward", reason := "slow read", position := "987654321" })
    rfl (by decide)

/-- Counterexample to C5 as stated: for a SIMPLE-mode subscription,
processing a subscribe/ok at position 1 does move it to SUBSCRIBED, but
the position from the ok is NOT stored: the stored position stays empty,
because only position-tracking modes store it. -/
theorem simple_subscribe_ok_does_not_store_position :
    (((New "s" SIMPLE optsNone).OnSubscribe
        { position := "1", subscriptionId := "s" }).1).state
      = SubscriptionState.STATE_SUBSCRIBED
    ∧ ¬((((New "s" SIMPLE optsNone).OnSubscribe
        { position := "1", subscriptionId := "s" }).1).position = "1") := by
  constructor
  · rfl
  · decide

/-- Claim C5 (amended): Every freshly created subscription starts in
state UNSUBSCRIBED; processing a subscribe/ok moves it to SUBSCRIBED,
stores the position from the ok exactly when the mode tracks position
(in SIMPLE mode the stored position is left unchanged), and fires the
subscribed event; processing a transport disconnect from any state moves
it back to UNSUBSCRIBED, firing unsubscribed with the disconnect
reason. -/
theorem subscription_state_transitions (sid : String) (m : Mode)
    (opts : SubscribeBodyOpts) (s : Subscription) (ok : SubscribeOk) :
    (New sid m opts).state = SubscriptionState.STATE_UNSUBSCRIBED
    ∧ ((s.OnSubscribe ok).1).state = SubscriptionState.STATE_SUBSCRIBED
    ∧ ((s.OnSubscribe ok).1).position =
        (if s.mode.trackPosition = true then ok.position else s.position)
    ∧ (s.OnSubscribe ok).2 = [Emitted.subscribed ok]
    ∧ (s.OnDisconnect.1).state = SubscriptionState.STATE_UNSUBSCRIBED
    ∧ s.OnDisconnect.2 = [Emitted.unsubscribed "disconnect"] := by
  refine ⟨rfl, rfl, ?_, rfl, rfl, rfl⟩
  simp [Subscription.OnSubscribe, trackPosition_position]

/-- Claim C6: The three subscription modes are exactly the flag pairs
(trackPosition, fastForward) with SIMPLE = (false, true), RELIABLE =
(true, true) and ADVANCED = (true, false), and every subscription
created in a mode carries that mode's flags. -/
theorem modes_flag_pairs (sid : String) (opts : SubscribeBodyOpts) :
    SIMPLE = { trackPosition := false, fastForward := true }
    ∧ RELIABLE = { trackPosition := true, fastForward := true }
    ∧ ADVANCED = { trackPosition := true, fastForward := false }
    ∧ (New sid SIMPLE opts).mode = SIMPLE
    ∧ (New sid RELIABLE opts).mode = RELIABLE
    ∧ (New sid ADVANCED opts).mode = ADVANCED :=
  ⟨rfl, rfl, rfl, rfl, rfl, rfl⟩

/-- Claim C7: For every subscription and every processed subscription
data frame, the data listener fires once per message of the batch, each
message passed through as an unmodified opaque JSON blob, in the order
the messages appear in the batch. -/
theorem processData_emits_each_message (s : Subscription) (d : SubscriptionData) :
    (s.ProcessData d).2 = d.messages.map Emitted.dataMsg
    ∧ ((s.ProcessData d).2).length = d.messages.length := by
  have h : ∀ l : List String, fireDataEach l = l.map Emitted.dataMsg := by
    intro l
    induction l with
    | nil => rfl
    | cons m rest ih => simp [fireDataEach, ih]
  exact ⟨h d.messages, by simp [Subscription.ProcessData, h d.messages]⟩

/-- Claim C8: Processing an rtm/subscription/error moves the addressed
subscription to UNSUBSCRIBED and fires subscribeError on it, clearing
the position when the error is out_of_sync; the fault stays scoped to
that subscription: other subscriptions are untouched, the client stays
CONNECTED, and no session-level event fires. -/
theorem subscription_error_scoped (c : Client) (subId : String) (e : SubscribeError)
    (hconn : c.state = ClientState.CONNECTED) :
    ((c.handleFrame (InboundFrame.subscriptionError subId e)).1).state
        = ClientState.CONNECTED
    ∧ (c.handleFrame (InboundFrame.subscriptionError subId e)).2 = []
    ∧ ((c.handleFrame (InboundFrame.subscriptionError subId e)).1).subscriptions =
        c.subscriptions.map
          (fun s => if s.subscriptionId = subId then (s.OnSubscribeError e).1 else s)
    ∧ (∀ s ∈ c.subscriptions, s.subscriptionId ≠ subId →
        s ∈ ((c.handleFrame (InboundFrame.subscriptionError subId e)).1).subscriptions)
    ∧ (∀ s : Subscription,
        ((s.OnSubscribeError e).1).state = SubscriptionState.STATE_UNSUBSCRIBED
        ∧ (s.OnSubscribeError e).2 = [Emitted.subscribeError e]
        ∧ (e.error = "out_of_sync" → ((s.OnSubscribeError e).1).position = "")) := by
  refine ⟨?_, rfl, rfl, ?_, ?_⟩
  · simp [Client.handleFrame, Client.applyToSub, hconn]
  · intro s hs hne
    simp only [Client.handleFrame, Client.applyToSub, List.mem_map]
    exact ⟨s, hs, by simp [hne]⟩
  · intro s
    refine ⟨?_, ?_, ?_⟩
    · by_cases h : e.error = "out_of_sync" <;>
        simp [Subscription.OnSubscribeError, h]
    · by_cases h : e.error = "out_of_sync" <;>
        simp [Subscription.OnSubscribeError, h]
    · intro h
      simp [Subscription.OnSubscribeError, h]

/-- Witness for C8: the two-subscription scenario: a connected client
holds subscriptions A and B; an out_of_sync subscription error addressed
to A leaves the client CONNECTED with no session event, keeps B
untouched in the registry, and moves A to UNSUBSCRIBED with its
position cleared. -/
theorem subscription_error_scoped_witness :
    ((clientAB.handleFrame (InboundFrame.subscriptionError "A" errOutOfSync)).1).state
        = ClientState.CONNECTED
    ∧ (clientAB.handleFrame (InboundFrame.subscriptionError "A" errOutOfSync)).2 = []
    ∧ subB ∈ ((clientAB.handleFrame
        (InboundFrame.subscriptionError "A" errOutOfSync)).1).subscriptions
    ∧ ((subA.OnSubscribeError errOutOfSync).1).state
        = SubscriptionState.STATE_UNSUBSCRIBED
    ∧ ((subA.OnSubscribeError errOutOfSync).1).position = "" := by
  have h := subscription_error_scoped clientAB "A" errOutOfSync rfl
  exact ⟨h.1, h.2.1, h.2.2.2.1 subB (by decide) (by decide),
    (h.2.2.2.2 subA).1, (h.2.2.2.2 subA).2.2 rfl⟩

/-- Claim C9: For every subscription created in ADVANCED mode and every
state it may reach by processing any sequence of events (before
subscribing, after subscribe/ok, after data, after reconnect), the
subscribe PDU it builds carries fast_forward false. -/
theorem advanced_pdu_fast_forward_false (sid : String) (opts : SubscribeBodyOpts)
    (evs : List Event) :
    (((New sid ADVANCED opts).run evs).SubscribePdu).bodyField "fast_forward" =
      some (JValue.jbool false) := by
  have hmode : ((New sid ADVANCED opts).run evs).mode = ADVANCED :=
    run_mode (New sid ADVANCED opts) evs
  simp [Subscription.SubscribePdu, PDU.bodyField, marshalSubscribeBody,
    subscribeBodyFields_fast_forward, Subscription.subscribeBody, hmode]
  rfl

/-- Claim C10: For every subscription with id s, regardless of mode,
options, stored position or state, UnsubscribePdu() returns a PDU with
action rtm/unsubscribe whose body is exactly the one-field JSON object
binding subscription_id to s. -/
theorem unsubscribePdu_shape (s : Subscription) :
    s.UnsubscribePdu =
      { action := "rtm/unsubscribe"
        body := JValue.jobj [("subscription_id", JValue.jstr s.subscriptionId)] } := rfl

end RtmSub



